import Mathlib

/-!
# SlewDegradeDelayCalc (OpenSTA, `dcalc/SlewDegradeDelayCalc.cc`)

A shallow embedding of the slew-degrading delay calculator.

* `Slew`, `ArcDelay` and `float` are one numeric carrier `F`; the code only uses the
  literal `0.0` and `*` on it, so the definitions ask for `Zero F` and `Mul F` only.
* C++ pointers are `Option`s (`none` is the null pointer).
* Out-parameters become returned tuples, in the order of the parameter list.
* `SlewDegradeDelayCalc` derives from `LumpedCapDelayCalc`, which is not part of the
  translated file.  The members of the base class that the file reads or writes are the
  fields of `LumpedCapDelayCalc`; the functions the file calls without defining them
  (base-class members and the parasitics component) are the fields of `Collaborators`,
  which every definition takes as a parameter.
-/

namespace sta

/-- The two senses of an edge, `RiseFall::rise()` and `RiseFall::fall()`. -/
inductive RiseFall where
  | rise
  | fall
  deriving DecidableEq, Repr

/-- A pin of the network; the calculator only passes it on. -/
structure Pin where
  id : Nat
  deriving DecidableEq, Repr

/-- A driver pin parasitic network; the calculator only passes it on. -/
structure Parasitic where
  id : Nat
  deriving DecidableEq, Repr

/-- An operating condition; the calculator only stores it. -/
structure Pvt where
  id : Nat
  deriving DecidableEq, Repr

/-- A table model of a library; the calculator only tests the pointer against null. -/
structure TableModel where
  id : Nat
  deriving DecidableEq, Repr

/-- An analysis point: `operatingConditions()` is all the calculator asks of it. -/
structure DcalcAnalysisPt where
  operatingConditions : Option Pvt
  deriving DecidableEq, Repr

/-- A transition: `asRiseFall()` is all the calculator asks of it. -/
structure Transition where
  asRiseFall : Option RiseFall
  deriving DecidableEq, Repr

/-- The two members of `LibertyLibrary` that `loadDelay` calls:
`wireSlewDegradationTable(rf)` (a table pointer, null when the library publishes none for
that sense) and `degradeWireSlew(rf, in_slew, wire_delay)`. -/
structure LibertyLibrary (F : Type) where
  wireSlewDegradationTable : Option RiseFall → Option TableModel
  degradeWireSlew : Option RiseFall → F → F → F

/-- A liberty cell: `libertyLibrary()` is all the calculator asks of it. -/
structure LibertyCell (F : Type) where
  libertyLibrary : Option (LibertyLibrary F)

/-- A liberty port: `libertyCell()` is all the calculator asks of it.  `gateDelay`
dereferences the returned pointer unconditionally, so it is not nullable here. -/
structure LibertyPort (F : Type) where
  libertyCell : LibertyCell F

/-- A timing arc: `from()` (here `fromPort`) and `toEdge()`. -/
structure TimingArc (F : Type) where
  fromPort : LibertyPort F
  toEdge : Transition

/-- The parasitics component that `parasitics_` points to. -/
structure Parasitics where
  id : Nat
  deriving DecidableEq, Repr

/-- The `StaState` base: the components a calculator is constructed from.  `parasitics_`
is the only one the translated file uses; `corner` stands for the rest. -/
structure StaState where
  parasitics_ : Parasitics
  corner : Nat
  deriving DecidableEq, Repr

/-- The data members that `LumpedCapDelayCalc`, the base class, declares and that
`SlewDegradeDelayCalc.cc` reads or writes. -/
structure DriverState (F : Type) where
  input_port_ : Bool
  drvr_parasitic_ : Option Parasitic
  drvr_rf_ : Option RiseFall
  drvr_cell_ : Option (LibertyCell F)
  drvr_library_ : Option (LibertyLibrary F)
  drvr_slew_ : F
  multi_drvr_slew_factor_ : F

/-- The base class object: the `StaState` components and the driver members. -/
structure LumpedCapDelayCalc (F : Type) extends StaState, DriverState F

/-- Lines 34-63, `class SlewDegradeDelayCalc : public LumpedCapDelayCalc`, with its one
private member `pvt_`. -/
structure SlewDegradeDelayCalc (F : Type) extends LumpedCapDelayCalc F where
  pvt_ : Option Pvt

/-- The functions that the translated file calls and does not define; their bodies are
not in the file, so they are parameters.

`findElmore` is `Parasitics::findElmore(parasitic, load_pin, elmore, exists)`, called on
the component `parasitics_` points to, with its two out-parameters returned as a pair.

The next four are members of the base class.  Each receives the base-class object (it
cannot see the private `pvt_`).  `dspfWireDelaySlew` and `thresholdAdjust` take the
current values of their reference parameters and return the new ones; `gateDelay`
returns the base-class object it leaves behind.  `inputPortPropagate` is the part of the
base-class `inputPortDelay` that the specification leaves to the lumped-capacitance model
(see `LumpedCapDelayCalc.inputPortDelay`).

`initialDriverState` is modelled from the spec: the constructors of `LumpedCapDelayCalc`
and `StaState` are not in the file; an instance constructed from a `StaState` has that
configuration, and its driver members are whatever the constructor leaves (undefined or
empty).  `indeterminate_pvt` is what one construction leaves in `pvt_`: the constructor
on lines 71-74 does not initialise the member declared on line 62, so the value is
whatever the allocation holds, and two constructions may run with different ones. -/
structure Collaborators (F : Type) where
  findElmore : Parasitics → Parasitic → Pin → F × Bool
  dspfWireDelaySlew : LumpedCapDelayCalc F → Pin → F → F → F → F × F
  thresholdAdjust : LumpedCapDelayCalc F → Pin → F → F → F × F
  gateDelay : LumpedCapDelayCalc F → TimingArc F → F → F → Option Parasitic → F →
    Option Pvt → DcalcAnalysisPt → LumpedCapDelayCalc F × F × F
  inputPortPropagate : LumpedCapDelayCalc F → Pin → F → Option RiseFall →
    Option Parasitic → DcalcAnalysisPt → LumpedCapDelayCalc F
  initialDriverState : StaState → DriverState F
  indeterminate_pvt : Option Pvt

/-- The `delayAsFloat` conversion: `Delay` is `float` in this build, so it is the identity. -/
def delayAsFloat {F : Type} (d : F) : F := d

/-- Modelled from the spec: the constructor `LumpedCapDelayCalc(StaState *sta)` is not in
the file.  The instance has the configuration of `sta` and the driver members the
constructor leaves. -/
def LumpedCapDelayCalc.new {F : Type} (env : Collaborators F) (sta : StaState) :
    LumpedCapDelayCalc F :=
  { toStaState := sta, toDriverState := env.initialDriverState sta }

/-- Modelled from the spec: `LumpedCapDelayCalc::inputPortDelay` is not in the file.
Section 4.2 of the specification: the input-port path "marks instance state
`input_port = true`, and otherwise delegates output-slew propagation to the base
lumped-capacitance model".  The propagation is the parameter `inputPortPropagate`; the
mark is what the specification adds to it. -/
def LumpedCapDelayCalc.inputPortDelay {F : Type} (env : Collaborators F)
    (b : LumpedCapDelayCalc F) (port_pin : Pin) (in_slew : F) (rf : Option RiseFall)
    (parasitic : Option Parasitic) (dcalc_ap : DcalcAnalysisPt) : LumpedCapDelayCalc F :=
  { env.inputPortPropagate b port_pin in_slew rf parasitic dcalc_ap with input_port_ := true }

/-- Lines 71-74: the constructor runs the base constructor and initialises nothing else. -/
def SlewDegradeDelayCalc.new {F : Type} (env : Collaborators F) (sta : StaState) :
    SlewDegradeDelayCalc F :=
  { toLumpedCapDelayCalc := LumpedCapDelayCalc.new env sta, pvt_ := env.indeterminate_pvt }

/-- Lines 76-80: `copy()` constructs a new calculator from `this` seen as a `StaState`.
Returns the receiver (untouched) and the new instance. -/
def SlewDegradeDelayCalc.copy {F : Type} (env : Collaborators F) (c : SlewDegradeDelayCalc F) :
    SlewDegradeDelayCalc F × SlewDegradeDelayCalc F :=
  (c, SlewDegradeDelayCalc.new env c.toStaState)

/-- Lines 82-91: `inputPortDelay` stores the analysis point's operating conditions in
`pvt_`, then runs the base-class `inputPortDelay` with the same five arguments. -/
def SlewDegradeDelayCalc.inputPortDelay {F : Type} (env : Collaborators F)
    (c : SlewDegradeDelayCalc F) (port_pin : Pin) (in_slew : F) (rf : Option RiseFall)
    (parasitic : Option Parasitic) (dcalc_ap : DcalcAnalysisPt) : SlewDegradeDelayCalc F :=
  let c1 : SlewDegradeDelayCalc F := { c with pvt_ := dcalc_ap.operatingConditions }
  { c1 with
    toLumpedCapDelayCalc :=
      LumpedCapDelayCalc.inputPortDelay env c1.toLumpedCapDelayCalc port_pin in_slew rf
        parasitic dcalc_ap }

/-- Lines 93-114: `gateDelay` writes six members, then runs the base-class `gateDelay`
with the same arguments.  Returns the calculator, `gate_delay` and `drvr_slew`. -/
def SlewDegradeDelayCalc.gateDelay {F : Type} (env : Collaborators F)
    (c : SlewDegradeDelayCalc F) (arc : TimingArc F) (in_slew : F) (load_cap : F)
    (drvr_parasitic : Option Parasitic) (related_out_cap : F) (pvt : Option Pvt)
    (dcalc_ap : DcalcAnalysisPt) : SlewDegradeDelayCalc F × F × F :=
  let c1 : SlewDegradeDelayCalc F := { c with input_port_ := false }
  let c2 : SlewDegradeDelayCalc F := { c1 with drvr_parasitic_ := drvr_parasitic }
  let c3 : SlewDegradeDelayCalc F := { c2 with drvr_rf_ := arc.toEdge.asRiseFall }
  let drvr_cell : LibertyCell F := arc.fromPort.libertyCell
  let c4 : SlewDegradeDelayCalc F := { c3 with drvr_cell_ := some drvr_cell }
  let c5 : SlewDegradeDelayCalc F := { c4 with drvr_library_ := drvr_cell.libertyLibrary }
  let c6 : SlewDegradeDelayCalc F := { c5 with pvt_ := pvt }
  let r := env.gateDelay c6.toLumpedCapDelayCalc arc in_slew load_cap drvr_parasitic
    related_out_cap pvt dcalc_ap
  ({ c6 with toLumpedCapDelayCalc := r.1 }, r.2.1, r.2.2)

/-- Lines 116-139: `loadDelay`.  Returns `(wire_delay, load_slew)`. -/
def SlewDegradeDelayCalc.loadDelay {F : Type} [Zero F] [Mul F] (env : Collaborators F)
    (c : SlewDegradeDelayCalc F) (load_pin : Pin) : F × F :=
  let wire_delay1 : F := 0
  let load_slew1 : F := c.drvr_slew_
  let found : F × Bool :=
    match c.drvr_parasitic_ with
    | some p => env.findElmore c.parasitics_ p load_pin
    | none => (0, false)
  let elmore : F := found.1
  let elmore_exists : Bool := found.2
  let r : F × F :=
    if elmore_exists then
      let d : F × F :=
        match c.drvr_library_ with
        | some lib =>
          if (lib.wireSlewDegradationTable c.drvr_rf_).isSome then
            (elmore, lib.degradeWireSlew c.drvr_rf_ (delayAsFloat c.drvr_slew_)
              (delayAsFloat elmore))
          else (wire_delay1, load_slew1)
        | none => (wire_delay1, load_slew1)
      env.dspfWireDelaySlew c.toLumpedCapDelayCalc load_pin elmore d.1 d.2
    else (wire_delay1, load_slew1)
  let t : F × F := env.thresholdAdjust c.toLumpedCapDelayCalc load_pin r.1 r.2
  (t.1, t.2 * c.multi_drvr_slew_factor_)

/-- The error kinds the specification names (its section 7). -/
inductive DelayCalcError where
  | InvalidArc
  | InvalidOperatingCondition
  | StaleDriverState
  deriving DecidableEq, Repr

/-- What a caller of `loadDelay` observes, in the result type of the specification's
contract.  The function on lines 116-139 is `void`, has no `throw`, no early `return` and
no error flag, and the class keeps no "has driver state" member: every call ends by
writing the two out-parameters. -/
def SlewDegradeDelayCalc.loadDelayResult {F : Type} [Zero F] [Mul F] (env : Collaborators F)
    (c : SlewDegradeDelayCalc F) (load_pin : Pin) : Except DelayCalcError (F × F) :=
  Except.ok (SlewDegradeDelayCalc.loadDelay env c load_pin)

/-! ## Concrete scenarios (times in ps, capacitances in fF, over `ℚ`) -/

namespace Scenario

/-- A load pin. -/
def loadPin : Pin := ⟨7⟩

/-- A driver parasitic network. -/
def net : Parasitic := ⟨3⟩

/-- A calculator configuration. -/
def config : StaState := { parasitics_ := ⟨0⟩, corner := 0 }

/-- A library that publishes a degradation table for the rising sense only, with
`g(s, d) = s + d / 2`, so that `g(80, 30) = 95`. -/
def lib : LibertyLibrary ℚ where
  wireSlewDegradationTable := fun rf => if rf = some RiseFall.rise then some ⟨1⟩ else none
  degradeWireSlew := fun _ s d => s + d / 2

/-- A cell of `lib`. -/
def cell : LibertyCell ℚ := ⟨some lib⟩

/-- An arc of `cell` whose output edge rises. -/
def riseArc : TimingArc ℚ := { fromPort := ⟨cell⟩, toEdge := ⟨some RiseFall.rise⟩ }

/-- An arc of `cell` whose output edge falls (no degradation table for that sense). -/
def fallArc : TimingArc ℚ := { fromPort := ⟨cell⟩, toEdge := ⟨some RiseFall.fall⟩ }

/-- An operating condition. -/
def slow : Pvt := ⟨2⟩

/-- An analysis point whose operating condition is `slow`. -/
def ap : DcalcAnalysisPt := ⟨some slow⟩

/-- Collaborators of the scenarios: the parasitics hold an Elmore estimate of `elmore` for
every pin of `net` when `found` is set; no detailed-network refinement applies; the
threshold adjustment is the identity; the delay table gives `delay = 100 + cap / 2` and
`slew = 30 + in_slew` (so 120 and 80 at `in_slew = 50`, `cap = 40`) and the base
`gateDelay` stores that slew and the multi-driver factor `m`; the input-port propagation
stores the slew, sense and parasitic; a constructed calculator has null pointers, slew 0
and factor 1. -/
def world (elmore : ℚ) (found : Bool) (m : ℚ) : Collaborators ℚ where
  findElmore := fun _ _ _ => (elmore, found)
  dspfWireDelaySlew := fun _ _ _ d s => (d, s)
  thresholdAdjust := fun _ _ d s => (d, s)
  gateDelay := fun b _ in_slew load_cap _ _ _ _ =>
    ({ b with drvr_slew_ := 30 + in_slew, multi_drvr_slew_factor_ := m },
      100 + load_cap / 2, 30 + in_slew)
  inputPortPropagate := fun b _ in_slew rf parasitic _ =>
    { b with drvr_slew_ := in_slew, drvr_rf_ := rf,
             drvr_parasitic_ := parasitic, drvr_cell_ := none, drvr_library_ := none }
  initialDriverState := fun _ =>
    { input_port_ := false, drvr_parasitic_ := none, drvr_rf_ := none, drvr_cell_ := none,
      drvr_library_ := none, drvr_slew_ := 0, multi_drvr_slew_factor_ := 1 }
  indeterminate_pvt := none

/-- The same collaborators with a threshold adjustment that is not the identity: the load
library measures the slew between wider thresholds (factor 3/2) and its input threshold
lies later on the ramp (an eighth of the slew). -/
def thresholdWorld (elmore : ℚ) (found : Bool) (m : ℚ) : Collaborators ℚ :=
  { world elmore found m with thresholdAdjust := fun _ _ d s => (d + s / 8, s * (3 / 2)) }

/-- Collaborators with a detailed-network refinement that supersedes its inputs (wire delay
`7/10` of the Elmore estimate, slew the driver slew plus `7/5` of it) and the threshold
adjustment of `thresholdWorld`. -/
def refinedWorld (elmore : ℚ) (found : Bool) (m : ℚ) : Collaborators ℚ :=
  { thresholdWorld elmore found m with
    dspfWireDelaySlew := fun b _ e _ _ => (e * (7 / 10), b.drvr_slew_ + e * (7 / 5)) }

/-- The collaborators of `world` with a refinement that takes twice the Elmore estimate
off the slew it is given: it is decreasing in the estimate. -/
def steepWorld (elmore : ℚ) (found : Bool) (m : ℚ) : Collaborators ℚ :=
  { world elmore found m with dspfWireDelaySlew := fun _ _ e d x => (d, x - 2 * e) }

/-- The collaborators of `world` with a threshold adjustment that is decreasing in the
slew it is given. -/
def mirrorWorld (elmore : ℚ) (found : Bool) (m : ℚ) : Collaborators ℚ :=
  { world elmore found m with thresholdAdjust := fun _ _ d x => (d, 200 - x) }

/-- A calculator as constructed. -/
def fresh (env : Collaborators ℚ) : SlewDegradeDelayCalc ℚ :=
  SlewDegradeDelayCalc.new env config

/-- A calculator populated by `gateDelay` on `arc` with `in_slew = 50`, `load_cap = 40`. -/
def driven (env : Collaborators ℚ) (arc : TimingArc ℚ) (parasitic : Option Parasitic) :
    SlewDegradeDelayCalc ℚ :=
  (SlewDegradeDelayCalc.gateDelay env (fresh env) arc 50 40 parasitic 0 (some slow) ap).1

end Scenario

/-! ## Theorems -/

open Scenario

/-- C1 (as amended). When no Elmore estimate exists for the load pin (null driver
parasitic, or `findElmore` reports `exists = false`), `loadDelay` returns the threshold
adjustment of `(0, drvr_slew_)` with the slew multiplied by the multi-driver factor; when
the threshold adjustment leaves `(0, drvr_slew_)` unchanged that is
`(0, drvr_slew_ * multi_drvr_slew_factor_)`. -/
theorem loadDelay_no_elmore {F : Type} [Zero F] [Mul F] (env : Collaborators F)
    (c : SlewDegradeDelayCalc F) (load_pin : Pin)
    (h : c.drvr_parasitic_ = none ∨
      ∃ p, c.drvr_parasitic_ = some p ∧ (env.findElmore c.parasitics_ p load_pin).2 = false) :
    SlewDegradeDelayCalc.loadDelay env c load_pin =
        ((env.thresholdAdjust c.toLumpedCapDelayCalc load_pin 0 c.drvr_slew_).1,
         (env.thresholdAdjust c.toLumpedCapDelayCalc load_pin 0 c.drvr_slew_).2 *
           c.multi_drvr_slew_factor_) ∧
      (env.thresholdAdjust c.toLumpedCapDelayCalc load_pin 0 c.drvr_slew_ = (0, c.drvr_slew_) →
        SlewDegradeDelayCalc.loadDelay env c load_pin =
          (0, c.drvr_slew_ * c.multi_drvr_slew_factor_)) := by
  have key : SlewDegradeDelayCalc.loadDelay env c load_pin =
      ((env.thresholdAdjust c.toLumpedCapDelayCalc load_pin 0 c.drvr_slew_).1,
       (env.thresholdAdjust c.toLumpedCapDelayCalc load_pin 0 c.drvr_slew_).2 *
         c.multi_drvr_slew_factor_) := by
    rcases h with h | ⟨p, hp, hf⟩
    · simp [SlewDegradeDelayCalc.loadDelay, h]
    · simp [SlewDegradeDelayCalc.loadDelay, hp, hf]
  refine ⟨key, fun hid => ?_⟩
  rw [key, hid]

/-- Witness of C1 (as amended): the scenario of the specification, driver slew 80 and no
parasitics, with multi-driver factor 1/2. -/
theorem loadDelay_no_elmore_witness :
    SlewDegradeDelayCalc.loadDelay (world 0 false (1 / 2))
      (driven (world 0 false (1 / 2)) riseArc none) loadPin = (0, 40) := by
  have h := (loadDelay_no_elmore (world 0 false (1 / 2))
    (driven (world 0 false (1 / 2)) riseArc none) loadPin (Or.inl rfl)).2 rfl
  rw [h]
  norm_num [driven, SlewDegradeDelayCalc.gateDelay, world]

/-- Counterexample to C1 as stated: a populated state with a null driver parasitic, driver
slew 80 and factor 1, for which `loadDelay` returns `(10, 120)` and not `(0, 80 * 1)`,
because the threshold adjustment also runs when no Elmore estimate exists. -/
theorem loadDelay_no_elmore_counterexample :
    (driven (thresholdWorld 0 false 1) riseArc none).drvr_parasitic_ = none ∧
    (driven (thresholdWorld 0 false 1) riseArc none).drvr_slew_ = 80 ∧
    (driven (thresholdWorld 0 false 1) riseArc none).multi_drvr_slew_factor_ = 1 ∧
    SlewDegradeDelayCalc.loadDelay (thresholdWorld 0 false 1)
      (driven (thresholdWorld 0 false 1) riseArc none) loadPin = (10, 120) ∧
    SlewDegradeDelayCalc.loadDelay (thresholdWorld 0 false 1)
      (driven (thresholdWorld 0 false 1) riseArc none) loadPin ≠ (0, 80 * 1) := by
  refine ⟨rfl, ?_, rfl, ?_, ?_⟩ <;>
    norm_num [SlewDegradeDelayCalc.loadDelay, SlewDegradeDelayCalc.gateDelay, world,
      thresholdWorld, driven]

/-- C2. With an Elmore estimate `e` reported as existing, a driving library that publishes
a degradation table for the driver's sense, an identity threshold adjustment and a
refinement that leaves its arguments as they are, `loadDelay` returns `wire_delay = e`
and `load_slew = g(s, e) * m`, where `s` is the driver slew, `m` the multi-driver factor
and `g` the library's `degradeWireSlew` for the driver's sense. -/
theorem loadDelay_degraded {F : Type} [Zero F] [Mul F] (env : Collaborators F)
    (c : SlewDegradeDelayCalc F) (load_pin : Pin) (p : Parasitic) (lib : LibertyLibrary F)
    (s e m : F)
    (hs : c.drvr_slew_ = s) (hm : c.multi_drvr_slew_factor_ = m)
    (hpar : c.drvr_parasitic_ = some p)
    (hfound : env.findElmore c.parasitics_ p load_pin = (e, true))
    (hlib : c.drvr_library_ = some lib)
    (htab : (lib.wireSlewDegradationTable c.drvr_rf_).isSome = true)
    (hth : ∀ d x, env.thresholdAdjust c.toLumpedCapDelayCalc load_pin d x = (d, x))
    (hdspf : ∀ d x, env.dspfWireDelaySlew c.toLumpedCapDelayCalc load_pin e d x = (d, x)) :
    SlewDegradeDelayCalc.loadDelay env c load_pin =
      (e, lib.degradeWireSlew c.drvr_rf_ s e * m) := by
  subst hs hm
  simp [SlewDegradeDelayCalc.loadDelay, hpar, hfound, hlib, htab, hth, hdspf, delayAsFloat]

/-- Witness of C2: driver slew 80, Elmore estimate 30, `g(80, 30) = 95`; the result is
`(30, 95)` with factor 1 and `(30, 95 / 2)` with factor 1/2. -/
theorem loadDelay_degraded_witness :
    SlewDegradeDelayCalc.loadDelay (world 30 true 1)
        (driven (world 30 true 1) riseArc (some net)) loadPin = (30, 95) ∧
    SlewDegradeDelayCalc.loadDelay (world 30 true (1 / 2))
        (driven (world 30 true (1 / 2)) riseArc (some net)) loadPin = (30, 95 / 2) := by
  constructor
  · rw [loadDelay_degraded (world 30 true 1) (driven (world 30 true 1) riseArc (some net))
      loadPin net lib 80 30 1 (by norm_num [driven, SlewDegradeDelayCalc.gateDelay, world])
      rfl rfl rfl rfl rfl (fun _ _ => rfl) (fun _ _ => rfl)]
    norm_num [lib]
  · rw [loadDelay_degraded (world 30 true (1 / 2))
      (driven (world 30 true (1 / 2)) riseArc (some net))
      loadPin net lib 80 30 (1 / 2) (by norm_num [driven, SlewDegradeDelayCalc.gateDelay, world])
      rfl rfl rfl rfl rfl (fun _ _ => rfl) (fun _ _ => rfl)]
    norm_num [lib]

/-- C3. First part: when the two inherited adjustments do not read the multi-driver factor
of the object they run on, all states that differ from `c` only in that factor get the same
`wire_delay`, and their `load_slew` is one threshold-adjusted slew multiplied by the
state's own factor.  Second part, on every path and with no assumption: the returned
`load_slew` is the slew component of the threshold adjustment multiplied by the state's
multi-driver factor, and the returned `wire_delay` is its delay component, unscaled. -/
theorem loadDelay_factor_scales_slew_only {F : Type} [Zero F] [Mul F]
    (env : Collaborators F) (c : SlewDegradeDelayCalc F) (load_pin : Pin) :
    ((∀ m e d x, env.dspfWireDelaySlew
          { c.toLumpedCapDelayCalc with multi_drvr_slew_factor_ := m } load_pin e d x =
        env.dspfWireDelaySlew c.toLumpedCapDelayCalc load_pin e d x) →
      (∀ m d x, env.thresholdAdjust
          { c.toLumpedCapDelayCalc with multi_drvr_slew_factor_ := m } load_pin d x =
        env.thresholdAdjust c.toLumpedCapDelayCalc load_pin d x) →
      (∀ m, (SlewDegradeDelayCalc.loadDelay env
          { c with multi_drvr_slew_factor_ := m } load_pin).1 =
        (SlewDegradeDelayCalc.loadDelay env c load_pin).1) ∧
      ∃ d x, ∀ m, SlewDegradeDelayCalc.loadDelay env
          { c with multi_drvr_slew_factor_ := m } load_pin =
        ((env.thresholdAdjust c.toLumpedCapDelayCalc load_pin d x).1,
         (env.thresholdAdjust c.toLumpedCapDelayCalc load_pin d x).2 * m)) ∧
    ∃ d x, SlewDegradeDelayCalc.loadDelay env c load_pin =
      ((env.thresholdAdjust c.toLumpedCapDelayCalc load_pin d x).1,
       (env.thresholdAdjust c.toLumpedCapDelayCalc load_pin d x).2 *
         c.multi_drvr_slew_factor_) := by
  refine ⟨fun hd ht => ⟨fun m => ?_, ?_⟩, ⟨_, _, rfl⟩⟩
  · simp only [SlewDegradeDelayCalc.loadDelay, hd, ht]
  · apply Exists.intro
    apply Exists.intro
    intro m
    simp only [SlewDegradeDelayCalc.loadDelay, hd, ht]
    rfl

/-- Witness of C3: with driver slew 80, Elmore estimate 30 and the refining collaborators,
the wire delay is the same with factor 1 and with factor 1/2. -/
theorem loadDelay_factor_scales_slew_only_witness :
    (SlewDegradeDelayCalc.loadDelay (refinedWorld 30 true 1)
        { driven (refinedWorld 30 true 1) riseArc (some net) with
          multi_drvr_slew_factor_ := 1 / 2 } loadPin).1 =
      (SlewDegradeDelayCalc.loadDelay (refinedWorld 30 true 1)
        (driven (refinedWorld 30 true 1) riseArc (some net)) loadPin).1 :=
  ((loadDelay_factor_scales_slew_only (refinedWorld 30 true 1)
      (driven (refinedWorld 30 true 1) riseArc (some net)) loadPin).1
    (fun _ _ _ _ => rfl) (fun _ _ _ => rfl)).1 (1 / 2)

/-- C4. `gateDelay` runs the base-class table lookup on a calculator whose `input_port_`
is `false`, whose driver parasitic is `drvr_parasitic`, whose driver sense is that of the
arc's output edge, whose driving cell is the arc's cell, whose driving library is that
cell's library and whose operating condition is `pvt`; these six members come from the
arguments alone and the other members are those of the prior state. -/
theorem gateDelay_snapshot_before_lookup {F : Type} (env : Collaborators F)
    (c : SlewDegradeDelayCalc F) (arc : TimingArc F) (in_slew load_cap : F)
    (drvr_parasitic : Option Parasitic) (related_out_cap : F) (pvt : Option Pvt)
    (dcalc_ap : DcalcAnalysisPt) :
    SlewDegradeDelayCalc.gateDelay env c arc in_slew load_cap drvr_parasitic related_out_cap
        pvt dcalc_ap =
      ({ toLumpedCapDelayCalc :=
           (env.gateDelay
             { toStaState := c.toStaState
               input_port_ := false
               drvr_parasitic_ := drvr_parasitic
               drvr_rf_ := arc.toEdge.asRiseFall
               drvr_cell_ := some arc.fromPort.libertyCell
               drvr_library_ := arc.fromPort.libertyCell.libertyLibrary
               drvr_slew_ := c.drvr_slew_
               multi_drvr_slew_factor_ := c.multi_drvr_slew_factor_ }
             arc in_slew load_cap drvr_parasitic related_out_cap pvt dcalc_ap).1
         pvt_ := pvt },
       (env.gateDelay
             { toStaState := c.toStaState
               input_port_ := false
               drvr_parasitic_ := drvr_parasitic
               drvr_rf_ := arc.toEdge.asRiseFall
               drvr_cell_ := some arc.fromPort.libertyCell
               drvr_library_ := arc.fromPort.libertyCell.libertyLibrary
               drvr_slew_ := c.drvr_slew_
               multi_drvr_slew_factor_ := c.multi_drvr_slew_factor_ }
             arc in_slew load_cap drvr_parasitic related_out_cap pvt dcalc_ap).2.1,
       (env.gateDelay
             { toStaState := c.toStaState
               input_port_ := false
               drvr_parasitic_ := drvr_parasitic
               drvr_rf_ := arc.toEdge.asRiseFall
               drvr_cell_ := some arc.fromPort.libertyCell
               drvr_library_ := arc.fromPort.libertyCell.libertyLibrary
               drvr_slew_ := c.drvr_slew_
               multi_drvr_slew_factor_ := c.multi_drvr_slew_factor_ }
             arc in_slew load_cap drvr_parasitic related_out_cap pvt dcalc_ap).2.2) := by
  rfl

/-- C5 (as amended). `loadDelay` has no failure path: called on the instance returned by
`copy()` with no `gateDelay` or `inputPortDelay` in between, it returns the
`(wire_delay, load_slew)` pair computed from the driver members the constructor leaves,
whatever the driver state of the original was, and never `StaleDriverState`. -/
theorem loadDelay_on_copy_returns {F : Type} [Zero F] [Mul F] (env : Collaborators F)
    (c : SlewDegradeDelayCalc F) (load_pin : Pin) :
    SlewDegradeDelayCalc.loadDelayResult env (SlewDegradeDelayCalc.copy env c).2 load_pin =
        Except.ok (SlewDegradeDelayCalc.loadDelay env
          (SlewDegradeDelayCalc.new env c.toStaState) load_pin) ∧
      SlewDegradeDelayCalc.loadDelayResult env (SlewDegradeDelayCalc.copy env c).2 load_pin ≠
        Except.error DelayCalcError.StaleDriverState := by
  refine ⟨rfl, ?_⟩
  intro h
  simp [SlewDegradeDelayCalc.loadDelayResult] at h

/-- Counterexample to C5 as stated: the copy of a calculator populated by `gateDelay`
answers `loadDelay` with the pair `(0, 0)`, not with `StaleDriverState`. -/
theorem loadDelay_on_copy_counterexample :
    SlewDegradeDelayCalc.loadDelayResult (world 0 false 1)
        (SlewDegradeDelayCalc.copy (world 0 false 1)
          (driven (world 0 false 1) riseArc none)).2 loadPin = Except.ok (0, 0) ∧
      SlewDegradeDelayCalc.loadDelayResult (world 0 false 1)
        (SlewDegradeDelayCalc.copy (world 0 false 1)
          (driven (world 0 false 1) riseArc none)).2 loadPin ≠
        Except.error DelayCalcError.StaleDriverState := by
  constructor
  · norm_num [SlewDegradeDelayCalc.loadDelayResult, SlewDegradeDelayCalc.loadDelay,
      SlewDegradeDelayCalc.copy, SlewDegradeDelayCalc.new, LumpedCapDelayCalc.new, world]
  · intro h
    simp [SlewDegradeDelayCalc.loadDelayResult] at h

/-- C6 (as amended). For a state whose driving library publishes a degradation table for
the driver's sense, a load pin and two existing Elmore estimates `e1 ≤ e2` (two parasitics
providers, the state and every other collaborator the same): if the degradation function is
non-decreasing in the wire delay, the refinement and the threshold adjustment are
non-decreasing in their numeric arguments, and multiplying by the multi-driver factor
preserves the order, then the `load_slew` returned for `e1` is at most the one returned
for `e2`.  The carrier is any type with `0`, `*` and a relation `≤`. -/
theorem loadDelay_monotone_in_elmore {F : Type} [Zero F] [Mul F] [LE F]
    (env1 env2 : Collaborators F) (c : SlewDegradeDelayCalc F) (load_pin : Pin)
    (p : Parasitic) (lib : LibertyLibrary F) (e1 e2 : F)
    (hd_same : env2.dspfWireDelaySlew = env1.dspfWireDelaySlew)
    (ht_same : env2.thresholdAdjust = env1.thresholdAdjust)
    (hpar : c.drvr_parasitic_ = some p)
    (h1 : env1.findElmore c.parasitics_ p load_pin = (e1, true))
    (h2 : env2.findElmore c.parasitics_ p load_pin = (e2, true))
    (hlib : c.drvr_library_ = some lib)
    (htab : (lib.wireSlewDegradationTable c.drvr_rf_).isSome = true)
    (hg : ∀ a b, a ≤ b →
      lib.degradeWireSlew c.drvr_rf_ c.drvr_slew_ a ≤ lib.degradeWireSlew c.drvr_rf_ c.drvr_slew_ b)
    (hd : ∀ e e' d d' x x', e ≤ e' → d ≤ d' → x ≤ x' →
      (env1.dspfWireDelaySlew c.toLumpedCapDelayCalc load_pin e d x).1 ≤
          (env1.dspfWireDelaySlew c.toLumpedCapDelayCalc load_pin e' d' x').1 ∧
        (env1.dspfWireDelaySlew c.toLumpedCapDelayCalc load_pin e d x).2 ≤
          (env1.dspfWireDelaySlew c.toLumpedCapDelayCalc load_pin e' d' x').2)
    (ht : ∀ d d' x x', d ≤ d' → x ≤ x' →
      (env1.thresholdAdjust c.toLumpedCapDelayCalc load_pin d x).2 ≤
        (env1.thresholdAdjust c.toLumpedCapDelayCalc load_pin d' x').2)
    (hm : ∀ a b, a ≤ b → a * c.multi_drvr_slew_factor_ ≤ b * c.multi_drvr_slew_factor_)
    (he : e1 ≤ e2) :
    (SlewDegradeDelayCalc.loadDelay env1 c load_pin).2 ≤
      (SlewDegradeDelayCalc.loadDelay env2 c load_pin).2 := by
  simp only [SlewDegradeDelayCalc.loadDelay, hpar, h1, h2, hlib, htab, hd_same, ht_same,
    delayAsFloat, if_true]
  apply hm
  have hstep := hd e1 e2 e1 e2 _ _ he he (hg e1 e2 he)
  exact ht _ _ _ _ hstep.1 hstep.2

/-- Witness of C6 (as amended): driver slew 80, estimates 30 and 45, no refinement, the
threshold adjustment of `thresholdWorld`, factor 1/2.  The degraded slews 95 and 205/2
reach the result: the load slews are 285/4 and 615/8. -/
theorem loadDelay_monotone_in_elmore_witness :
    (SlewDegradeDelayCalc.loadDelay (thresholdWorld 30 true (1 / 2))
        (driven (thresholdWorld 30 true (1 / 2)) riseArc (some net)) loadPin).2 = 285 / 4 ∧
      (SlewDegradeDelayCalc.loadDelay (thresholdWorld 45 true (1 / 2))
        (driven (thresholdWorld 30 true (1 / 2)) riseArc (some net)) loadPin).2 = 615 / 8 ∧
      (SlewDegradeDelayCalc.loadDelay (thresholdWorld 30 true (1 / 2))
        (driven (thresholdWorld 30 true (1 / 2)) riseArc (some net)) loadPin).2 ≤
      (SlewDegradeDelayCalc.loadDelay (thresholdWorld 45 true (1 / 2))
        (driven (thresholdWorld 30 true (1 / 2)) riseArc (some net)) loadPin).2 := by
  refine ⟨?_, ?_, ?_⟩
  · norm_num [SlewDegradeDelayCalc.loadDelay, SlewDegradeDelayCalc.gateDelay, world,
      thresholdWorld, driven, lib, cell, riseArc, delayAsFloat]
  · norm_num [SlewDegradeDelayCalc.loadDelay, SlewDegradeDelayCalc.gateDelay, world,
      thresholdWorld, driven, lib, cell, riseArc, delayAsFloat]
  · exact loadDelay_monotone_in_elmore (thresholdWorld 30 true (1 / 2))
      (thresholdWorld 45 true (1 / 2))
      (driven (thresholdWorld 30 true (1 / 2)) riseArc (some net)) loadPin net lib 30 45
      rfl rfl rfl rfl rfl rfl rfl
      (by intro a b hab; simp only [lib]; linarith)
      (by
        intro e e' d d' x x' _ hdd hxx
        simp only [thresholdWorld, world]
        exact ⟨hdd, hxx⟩)
      (by
        intro d d' x x' _ hxx
        simp only [thresholdWorld]
        linarith)
      (by
        intro a b hab
        have hfac : (driven (thresholdWorld 30 true (1 / 2)) riseArc
            (some net)).multi_drvr_slew_factor_ = 1 / 2 := rfl
        rw [hfac]
        linarith)
      (by norm_num)

/-- Counterexample to C6 as stated.  The library's degradation function is non-decreasing
in both arguments and publishes a table for the rising sense, the driver slew is 80 and the
estimates are 30 and 45, yet the load slew for 30 is not at most the one for 45
(a) with multi-driver factor -1 and nothing else in the way: -95 against -205/2;
(b) with factor 1 and a refinement that is decreasing in the estimate: 35 against 25/2;
(c) with factor 1 and a threshold adjustment that is decreasing in the slew: 105 against
195/2. -/
theorem loadDelay_monotone_in_elmore_counterexample :
    (∀ rf (a a' b b' : ℚ), a ≤ a' → b ≤ b' →
        Scenario.lib.degradeWireSlew rf a b ≤ Scenario.lib.degradeWireSlew rf a' b') ∧
      ¬ (SlewDegradeDelayCalc.loadDelay (world 30 true (-1))
            (driven (world 30 true (-1)) riseArc (some net)) loadPin).2 ≤
          (SlewDegradeDelayCalc.loadDelay (world 45 true (-1))
            (driven (world 30 true (-1)) riseArc (some net)) loadPin).2 ∧
      ¬ (SlewDegradeDelayCalc.loadDelay (steepWorld 30 true 1)
            (driven (steepWorld 30 true 1) riseArc (some net)) loadPin).2 ≤
          (SlewDegradeDelayCalc.loadDelay (steepWorld 45 true 1)
            (driven (steepWorld 30 true 1) riseArc (some net)) loadPin).2 ∧
      ¬ (SlewDegradeDelayCalc.loadDelay (mirrorWorld 30 true 1)
            (driven (mirrorWorld 30 true 1) riseArc (some net)) loadPin).2 ≤
          (SlewDegradeDelayCalc.loadDelay (mirrorWorld 45 true 1)
            (driven (mirrorWorld 30 true 1) riseArc (some net)) loadPin).2 := by
  refine ⟨?_, ?_, ?_, ?_⟩
  · intro rf a a' b b' ha hb
    simp only [lib]
    linarith
  · norm_num [SlewDegradeDelayCalc.loadDelay, SlewDegradeDelayCalc.gateDelay, world,
      driven, lib, cell, riseArc, delayAsFloat]
  · norm_num [SlewDegradeDelayCalc.loadDelay, SlewDegradeDelayCalc.gateDelay, world,
      steepWorld, driven, lib, cell, riseArc, delayAsFloat]
  · norm_num [SlewDegradeDelayCalc.loadDelay, SlewDegradeDelayCalc.gateDelay, world,
      mirrorWorld, driven, lib, cell, riseArc, delayAsFloat]

/-- C7. `inputPortDelay` first stores `dcalc_ap->operatingConditions()` in `pvt_` and then
runs the base-class `inputPortDelay` with the same five arguments on that object; the
resulting state keeps that operating condition and has `input_port_ = true`, the mark the
base-class function sets. -/
theorem inputPortDelay_sets_pvt_then_delegates {F : Type} (env : Collaborators F)
    (c : SlewDegradeDelayCalc F) (port_pin : Pin) (in_slew : F) (rf : Option RiseFall)
    (parasitic : Option Parasitic) (dcalc_ap : DcalcAnalysisPt) :
    (SlewDegradeDelayCalc.inputPortDelay env c port_pin in_slew rf parasitic dcalc_ap).pvt_ =
        dcalc_ap.operatingConditions ∧
      (SlewDegradeDelayCalc.inputPortDelay env c port_pin in_slew rf parasitic
        dcalc_ap).input_port_ = true ∧
      (SlewDegradeDelayCalc.inputPortDelay env c port_pin in_slew rf parasitic
        dcalc_ap).toLumpedCapDelayCalc =
        LumpedCapDelayCalc.inputPortDelay env
          ({ c with pvt_ := dcalc_ap.operatingConditions } :
            SlewDegradeDelayCalc F).toLumpedCapDelayCalc
          port_pin in_slew rf parasitic dcalc_ap :=
  ⟨rfl, rfl, rfl⟩

/-- Witness of C7: seeding a calculator that `gateDelay` had populated (its `input_port_`
is `false` and its `pvt_` is `some slow`) at an analysis point with no operating
conditions. -/
theorem inputPortDelay_sets_pvt_then_delegates_witness :
    (driven (world 0 false 1) riseArc none).input_port_ = false ∧
      (SlewDegradeDelayCalc.inputPortDelay (world 0 false 1)
        (driven (world 0 false 1) riseArc none) loadPin 25 (some RiseFall.fall) (some net)
        ⟨none⟩).pvt_ = none ∧
      (SlewDegradeDelayCalc.inputPortDelay (world 0 false 1)
        (driven (world 0 false 1) riseArc none) loadPin 25 (some RiseFall.fall) (some net)
        ⟨none⟩).input_port_ = true :=
  have h := inputPortDelay_sets_pvt_then_delegates (world 0 false 1)
    (driven (world 0 false 1) riseArc none) loadPin 25 (some RiseFall.fall) (some net) ⟨none⟩
  ⟨rfl, h.1, h.2.1⟩

/-- C9. With an existing Elmore estimate `e`, `loadDelay` returns the multi-driver scaling
(slew only) of the threshold adjustment of the refinement of the Elmore/degradation
values; with none, the multi-driver scaling (slew only) of the threshold adjustment of
`(0, drvr_slew_)`.  In both the threshold adjustment is applied once and only the
multi-driver scaling follows it. -/
theorem loadDelay_adjustment_order {F : Type} [Zero F] [Mul F] (env : Collaborators F)
    (c : SlewDegradeDelayCalc F) (load_pin : Pin) :
    (∀ p e, c.drvr_parasitic_ = some p →
        env.findElmore c.parasitics_ p load_pin = (e, true) →
        SlewDegradeDelayCalc.loadDelay env c load_pin =
          (let d : F × F :=
            match c.drvr_library_ with
            | some lib =>
              if (lib.wireSlewDegradationTable c.drvr_rf_).isSome then
                (e, lib.degradeWireSlew c.drvr_rf_ c.drvr_slew_ e)
              else (0, c.drvr_slew_)
            | none => (0, c.drvr_slew_)
          let r : F × F := env.dspfWireDelaySlew c.toLumpedCapDelayCalc load_pin e d.1 d.2
          let t : F × F := env.thresholdAdjust c.toLumpedCapDelayCalc load_pin r.1 r.2
          (t.1, t.2 * c.multi_drvr_slew_factor_))) ∧
      ((c.drvr_parasitic_ = none ∨
          ∃ p, c.drvr_parasitic_ = some p ∧
            (env.findElmore c.parasitics_ p load_pin).2 = false) →
        SlewDegradeDelayCalc.loadDelay env c load_pin =
          (let t : F × F := env.thresholdAdjust c.toLumpedCapDelayCalc load_pin 0 c.drvr_slew_
          (t.1, t.2 * c.multi_drvr_slew_factor_))) := by
  refine ⟨fun p e hpar hfound => ?_, fun h => ?_⟩
  · simp only [SlewDegradeDelayCalc.loadDelay, hpar, hfound, delayAsFloat, if_true]
  · rcases h with h | ⟨p, hp, hf⟩
    · simp [SlewDegradeDelayCalc.loadDelay, h]
    · simp [SlewDegradeDelayCalc.loadDelay, hp, hf]

/-- Witness of C9: driver slew 80, Elmore estimate 30, `g(80, 30) = 95`, a refinement that
gives `(21, 122)`, a threshold adjustment that turns it into `(145 / 4, 183)`, factor 1/2;
and the same collaborators with no estimate. -/
theorem loadDelay_adjustment_order_witness :
    SlewDegradeDelayCalc.loadDelay (refinedWorld 30 true (1 / 2))
        (driven (refinedWorld 30 true (1 / 2)) riseArc (some net)) loadPin =
        (145 / 4, 183 / 2) ∧
      SlewDegradeDelayCalc.loadDelay (refinedWorld 0 false (1 / 2))
        (driven (refinedWorld 0 false (1 / 2)) riseArc (some net)) loadPin = (10, 60) := by
  constructor
  · rw [(loadDelay_adjustment_order (refinedWorld 30 true (1 / 2))
      (driven (refinedWorld 30 true (1 / 2)) riseArc (some net)) loadPin).1 net 30 rfl rfl]
    norm_num [driven, SlewDegradeDelayCalc.gateDelay, refinedWorld, thresholdWorld, world,
      lib, cell, riseArc]
  · rw [(loadDelay_adjustment_order (refinedWorld 0 false (1 / 2))
      (driven (refinedWorld 0 false (1 / 2)) riseArc (some net)) loadPin).2
      (Or.inr ⟨net, rfl, rfl⟩)]
    norm_num [driven, SlewDegradeDelayCalc.gateDelay, refinedWorld, thresholdWorld, world]

/-- C10. With an existing Elmore estimate `e` and a driving library that is null or
publishes no degradation table for the driver's sense, the refinement receives
`wire_delay = 0` and `load_slew = drvr_slew_`; when the refinement and the threshold
adjustment leave these unchanged, `loadDelay` returns
`(0, drvr_slew_ * multi_drvr_slew_factor_)`. -/
theorem loadDelay_elmore_without_table {F : Type} [Zero F] [Mul F] (env : Collaborators F)
    (c : SlewDegradeDelayCalc F) (load_pin : Pin) (p : Parasitic) (e : F)
    (hpar : c.drvr_parasitic_ = some p)
    (hfound : env.findElmore c.parasitics_ p load_pin = (e, true))
    (hnolib : c.drvr_library_ = none ∨
      ∃ lib, c.drvr_library_ = some lib ∧ lib.wireSlewDegradationTable c.drvr_rf_ = none) :
    SlewDegradeDelayCalc.loadDelay env c load_pin =
        ((env.thresholdAdjust c.toLumpedCapDelayCalc load_pin
            (env.dspfWireDelaySlew c.toLumpedCapDelayCalc load_pin e 0 c.drvr_slew_).1
            (env.dspfWireDelaySlew c.toLumpedCapDelayCalc load_pin e 0 c.drvr_slew_).2).1,
         (env.thresholdAdjust c.toLumpedCapDelayCalc load_pin
            (env.dspfWireDelaySlew c.toLumpedCapDelayCalc load_pin e 0 c.drvr_slew_).1
            (env.dspfWireDelaySlew c.toLumpedCapDelayCalc load_pin e 0 c.drvr_slew_).2).2 *
           c.multi_drvr_slew_factor_) ∧
      (env.dspfWireDelaySlew c.toLumpedCapDelayCalc load_pin e 0 c.drvr_slew_ =
          (0, c.drvr_slew_) →
        env.thresholdAdjust c.toLumpedCapDelayCalc load_pin 0 c.drvr_slew_ =
          (0, c.drvr_slew_) →
        SlewDegradeDelayCalc.loadDelay env c load_pin =
          (0, c.drvr_slew_ * c.multi_drvr_slew_factor_)) := by
  have key : SlewDegradeDelayCalc.loadDelay env c load_pin =
      ((env.thresholdAdjust c.toLumpedCapDelayCalc load_pin
          (env.dspfWireDelaySlew c.toLumpedCapDelayCalc load_pin e 0 c.drvr_slew_).1
          (env.dspfWireDelaySlew c.toLumpedCapDelayCalc load_pin e 0 c.drvr_slew_).2).1,
       (env.thresholdAdjust c.toLumpedCapDelayCalc load_pin
          (env.dspfWireDelaySlew c.toLumpedCapDelayCalc load_pin e 0 c.drvr_slew_).1
          (env.dspfWireDelaySlew c.toLumpedCapDelayCalc load_pin e 0 c.drvr_slew_).2).2 *
         c.multi_drvr_slew_factor_) := by
    rcases hnolib with h | ⟨lib, hl, ht⟩
    · simp [SlewDegradeDelayCalc.loadDelay, hpar, hfound, h]
    · simp [SlewDegradeDelayCalc.loadDelay, hpar, hfound, hl, ht]
  refine ⟨key, fun hd ht => ?_⟩
  rw [key, hd, ht]

/-- Witness of C10: driver slew 80 on a falling output edge (the library has no table for
that sense), Elmore estimate 30, factor 1: the result is `(0, 80)`. -/
theorem loadDelay_elmore_without_table_witness :
    (0 : ℚ) < 30 ∧
      SlewDegradeDelayCalc.loadDelay (world 30 true 1)
        (driven (world 30 true 1) fallArc (some net)) loadPin = (0, 80) := by
  refine ⟨by norm_num, ?_⟩
  rw [(loadDelay_elmore_without_table (world 30 true 1)
    (driven (world 30 true 1) fallArc (some net)) loadPin net 30 rfl rfl
    (Or.inr ⟨lib, rfl, by simp [lib, driven, SlewDegradeDelayCalc.gateDelay, fallArc, world]⟩)).2
    rfl rfl]
  norm_num [driven, SlewDegradeDelayCalc.gateDelay, world]

end sta
